import Mathlib

/-!
Verification development for the jspdf-generator repository.

The definitions below are a shallow embedding of the program's core:
the element/document data model and stack-order manager
(src/context/PDFContext.tsx), the geometry transforms and binary export
pipeline (src/components/PDFEditor.tsx), the textual-recipe serializer
(generateCode in src/context/PDFContext.tsx), and the PdfWrapper page
writer (printText / printFooter).  JavaScript numbers are modelled as ℚ,
JS falsy defaulting (x || d, where 0 and "" are falsy) by jsNum / jsStr,
and Math.round by jsRound.  External services (jsPDF text metrics,
JSON.parse, chart rasterization) are parameters of the pipeline.
-/

namespace JsPdfGen

/-- JS `a || d` for an optional number: undefined and 0 are falsy. -/
def jsNum (o : Option ℚ) (d : ℚ) : ℚ :=
  match o with
  | none => d
  | some v => if v = 0 then d else v

/-- JS `a || d` for a plain number: 0 is falsy. -/
def jsQ (v d : ℚ) : ℚ := if v = 0 then d else v

/-- JS `a || d` for an optional string: undefined and "" are falsy. -/
def jsStr (o : Option String) (d : String) : String :=
  match o with
  | none => d
  | some s => if s = "" then d else s

/-- JS `Math.round`: round half toward positive infinity. -/
def jsRound (q : ℚ) : ℤ := ⌊q + 1 / 2⌋

/-- A rational that is an integer (models a JS number holding an integral value). -/
def IsIntQ (q : ℚ) : Prop := ((⌊q⌋ : ℚ) = q)

instance (q : ℚ) : Decidable (IsIntQ q) := by unfold IsIntQ; infer_instance

/-- Element type tag, as in the `type` field of PDFElement (src/types). -/
inductive ElemType where
  | text | title | image | chart | divider | card
  deriving DecidableEq, Repr

/-- The PDFElement record (src/context/types, src/unnamed/part_007).
Optional style fields are `Option`, mirroring the optional TS fields. -/
structure PDFElement where
  id : String
  type : ElemType
  content : String
  x : ℚ
  y : ℚ
  width : ℚ
  height : ℚ
  fontSize : Option ℚ := none
  fontFamily : Option String := none
  fontWeight : Option String := none
  fontStyle : Option String := none
  textAlign : Option String := none
  textColor : Option String := none
  backgroundColor : Option String := none
  borderStyle : Option String := none
  borderColor : Option String := none
  borderWidth : Option ℚ := none
  borderRadius : Option ℚ := none
  padding : Option ℚ := none
  shadow : Option Bool := none
  zIndex : ℕ := 0
  deriving DecidableEq, Repr

/-- JS truthiness of `element.borderWidth && element.borderWidth > 0`
(and likewise for borderRadius): undefined and 0 are falsy. -/
def hasPos (o : Option ℚ) : Bool :=
  match o with
  | none => false
  | some v => decide (0 < v)

/-- The zIndex-renumbering pass `newElements.forEach((el, i) => el.zIndex = i)`
generalized to an arbitrary starting index. -/
def renumberFrom (i : ℕ) : List PDFElement → List PDFElement
  | [] => []
  | e :: es => { e with zIndex := i } :: renumberFrom (i + 1) es

/-- Reassign each element's zIndex to its array index (PDFContext.tsx). -/
def renumber (l : List PDFElement) : List PDFElement := renumberFrom 0 l

/-- The document-model invariant: every element's zIndex equals its array
index (equivalently, the renumbering pass is the identity). -/
def Dense (l : List PDFElement) : Prop := renumber l = l

instance (l : List PDFElement) : Decidable (Dense l) := by
  unfold Dense; infer_instance

/-- Swap the entries at positions i and i+1 (the adjacent-swap used by
bringForward / sendBackward). -/
def swapAdj (l : List PDFElement) (i : ℕ) : List PDFElement :=
  match l.get? i, l.get? (i + 1) with
  | some a, some b => (l.set i b).set (i + 1) a
  | _, _ => l

/-- bringForward (PDFContext.tsx:352): swap with the next element and
renumber; no-op when the id is absent or already last. -/
def bringForward (id : String) (l : List PDFElement) : List PDFElement :=
  match l.findIdx? (fun e => e.id == id) with
  | none => l
  | some i => if i = l.length - 1 then l else renumber (swapAdj l i)

/-- sendBackward (PDFContext.tsx:374): swap with the previous element and
renumber; no-op when the id is absent or already first. -/
def sendBackward (id : String) (l : List PDFElement) : List PDFElement :=
  match l.findIdx? (fun e => e.id == id) with
  | none => l
  | some i => if i = 0 then l else renumber (swapAdj l (i - 1))

/-- bringToFront (PDFContext.tsx:396): remove the element and push it to
the tail, then renumber; no-op when the id is absent. -/
def bringToFront (id : String) (l : List PDFElement) : List PDFElement :=
  match l.find? (fun e => e.id == id) with
  | none => l
  | some e => renumber ((l.filter (fun x => x.id != id)) ++ [e])

/-- sendToBack (PDFContext.tsx:413): remove the element and unshift it to
the head, then renumber; no-op when the id is absent. -/
def sendToBack (id : String) (l : List PDFElement) : List PDFElement :=
  match l.find? (fun e => e.id == id) with
  | none => l
  | some e => renumber (e :: l.filter (fun x => x.id != id))

/-- One stack-order request, by element id (present or not). -/
inductive StackOp where
  | bringForward (id : String)
  | sendBackward (id : String)
  | bringToFront (id : String)
  | sendToBack (id : String)
  deriving DecidableEq, Repr

def applyStackOp (op : StackOp) (l : List PDFElement) : List PDFElement :=
  match op with
  | .bringForward id => bringForward id l
  | .sendBackward id => sendBackward id l
  | .bringToFront id => bringToFront id l
  | .sendToBack id => sendToBack id l

def applyStackOps (ops : List StackOp) (l : List PDFElement) : List PDFElement :=
  ops.foldl (fun acc op => applyStackOp op acc) l

/-- generateCode sorts the elements ascending by zIndex before visiting them
(`[...elements].sort((a, b) => a.zIndex - b.zIndex)`, PDFContext.tsx:172);
JS `Array.sort` is stable, modelled by insertion sort. -/
def sortByZ (l : List PDFElement) : List PDFElement :=
  l.insertionSort (fun a b => a.zIndex ≤ b.zIndex)

/-- addElement (PDFContext.tsx:299): append with a fresh id and
zIndex = elements.length ("New elements are added on top").
The random id generation is a parameter. -/
def addElement (newId : String) (e : PDFElement) (l : List PDFElement) : List PDFElement :=
  l ++ [{ e with id := newId, zIndex := l.length }]

/-- moveElement (PDFContext.tsx:313): store position
{x: Math.max(0, x), y: Math.max(0, y)} on the matching element. -/
def moveElement (id : String) (x y : ℚ) (l : List PDFElement) : List PDFElement :=
  l.map (fun el => if el.id == id then { el with x := max 0 x, y := max 0 y } else el)

/-- resizeElement (PDFContext.tsx:323). -/
def resizeElement (id : String) (w h : ℚ) (l : List PDFElement) : List PDFElement :=
  l.map (fun el => if el.id == id then { el with width := w, height := h } else el)

/-- deleteElement (PDFContext.tsx:343): filter the element out.  Note the
code performs no zIndex renumbering here. -/
def deleteElement (id : String) (l : List PDFElement) : List PDFElement :=
  l.filter (fun el => el.id != id)

/-- The drop/hover bounding computation (PDFEditor.tsx:304-311):
boundedX = Math.max(0, Math.min(pdfCoords.x, paperWidth - elementWidth)),
and likewise for y (the spec's clampToPaper). -/
def clampToPaper (px py w h pw ph : ℚ) : ℚ × ℚ :=
  (max 0 (min px (pw - w)), max 0 (min py (ph - h)))

/-- displayToPdfCoordinates (PDFEditor.tsx:212): divide display-relative
coordinates by the current display scale. -/
def displayToPdfCoordinates (scale displayX displayY : ℚ) : ℚ × ℚ :=
  (displayX / scale, displayY / scale)

/-- A concrete text element used in witnesses and counterexamples. -/
def elTextA : PDFElement :=
  { id := "a", type := .text, content := "A", x := 0, y := 0,
    width := 200, height := 100, zIndex := 0 }

/-- A second concrete text element. -/
def elTextB : PDFElement :=
  { id := "b", type := .text, content := "B", x := 0, y := 0,
    width := 200, height := 100, zIndex := 1 }

/-- Stack-op sequence used by the C2 witness, mixing present and absent ids. -/
def opsW : List StackOp :=
  [.sendToBack "b", .bringForward "a", .bringToFront "zzz", .sendBackward "nope",
   .bringToFront "a", .sendBackward "a", .bringForward "missing"]

/-- One drawing / state statement against the Page Writer or the
underlying pdf instance.  Both the binary export path and the textual
recipe are abstracted to the sequence of such statements they perform. -/
inductive PdfOp where
  | setFontOnly (fontName : String)
  | setFont (fontName fontStyle fontWeight : String)
  | setFontSize (size : ℚ)
  | setTextColor (color : String)
  | setDrawColor (color : String)
  | setFillColor (color : String)
  | setFillColorRGB (r g b : ℚ)
  | setLineWidth (w : ℚ)
  | printText (content : String) (x y : ℚ) (fontName : String) (size : ℚ)
      (fontStyle fontWeight align color : String)
  | addImage (data : String) (x y w h : ℚ)
  | rect (x y w h : ℚ) (style : String)
  | roundedRect (x y w h r : ℚ) (style : String)
  | line (x1 y1 x2 y2 : ℚ)
  | textDraw (content : String) (x y : ℚ) (align : String)
  | textWithLink (content : String) (x y : ℚ)
  | setPage (n : ℕ)
  deriving DecidableEq, Repr

/-- Font mapping of PDFEditor.tsx:73 (used by the binary export path);
it has no Symbol / ZapfDingbats entries. -/
def mapFontToPDF (font : String) : String :=
  if font = "Arial" ∨ font = "Helvetica" then "helvetica"
  else if font = "Times New Roman" ∨ font = "Times" then "times"
  else if font = "Courier New" ∨ font = "Courier" then "courier"
  else "helvetica"

/-- Font mapping of PDFContext.tsx:150 (used by generateCode); it also
maps Symbol and ZapfDingbats. -/
def mapFontToPDFCtx (font : String) : String :=
  if font = "Arial" ∨ font = "Helvetica" then "helvetica"
  else if font = "Times New Roman" ∨ font = "Times" then "times"
  else if font = "Courier New" ∨ font = "Courier" then "courier"
  else if font = "Symbol" then "symbol"
  else if font = "ZapfDingbats" then "zapfdingbats"
  else "helvetica"

/-- External services the export pipeline depends on:
jsPDF text metrics (getTextWidth for the currently set font and size),
JSON.parse of a chart spec, chart rasterization to a data URL, and
whether canvas.getContext succeeds. -/
structure RenderEnv where
  measure : String → ℚ → String → ℚ
  parseChart : String → Option String
  renderChart : String → ℚ → ℚ → String
  ctxOk : Bool

/-- Binary export, text/title branch (PDFEditor.tsx:396-441): set font and
size, measure the text, offset by baseline fontSize × 0.75 and padding,
shift by alignment inside availableWidth = width − 2·padding, then call
the Page Writer's printText. -/
def drawTextElem (env : RenderEnv) (e : PDFElement) : List PdfOp :=
  let fontName := mapFontToPDF (jsStr e.fontFamily "Arial")
  let fontSize := jsNum e.fontSize 16
  let textWidth := env.measure fontName fontSize e.content
  let baselineOffset := fontSize * (3 / 4)
  let textX := e.x
  let textY := e.y + baselineOffset
  let padding := e.padding.getD 0
  let availableWidth := e.width - padding * 2
  let textX := textX + padding
  let textY := textY + padding
  let textX :=
    if e.textAlign = some "center" then textX + (availableWidth - textWidth) / 2
    else if e.textAlign = some "right" then textX + (availableWidth - textWidth)
    else textX
  [.setFontOnly fontName, .setFontSize fontSize,
   .printText e.content textX textY fontName fontSize (jsStr e.fontStyle "normal")
     (jsStr e.fontWeight "normal") "left" (jsStr e.textColor "#000000")]

/-- Binary export, chart branch (PDFEditor.tsx:442-513): a missing canvas
context or an unparseable spec is caught and logged, contributing no draw
statement; on success the rendered raster is embedded at the element's
rectangle. -/
def drawChartElem (env : RenderEnv) (e : PDFElement) : List PdfOp :=
  if env.ctxOk = false then []
  else
    match env.parseChart e.content with
    | none => []
    | some cfg =>
      [.addImage (env.renderChart cfg e.width e.height) e.x e.y e.width e.height]

/-- Binary export, card branch (PDFEditor.tsx:514-558): optional draw
color / line width when borderWidth > 0, optional offset gray shadow
rounded-rect, then the main rect (rounded iff borderRadius > 0, style FD
iff borderWidth > 0). -/
def drawCardElem (e : PDFElement) : List PdfOp :=
  (if hasPos e.borderWidth then
    [.setDrawColor (jsStr e.borderColor "#000000"), .setLineWidth (e.borderWidth.getD 0)]
  else []) ++
  (if e.shadow = some true then
    [.setFillColorRGB 200 200 200,
     .roundedRect (e.x + 2) (e.y + 2) e.width e.height (e.borderRadius.getD 0) "F"]
  else []) ++
  [.setFillColor (jsStr e.backgroundColor "#ffffff")] ++
  (if hasPos e.borderRadius then
    [.roundedRect e.x e.y e.width e.height (e.borderRadius.getD 0)
      (if hasPos e.borderWidth then "FD" else "F")]
  else
    [.rect e.x e.y e.width e.height (if hasPos e.borderWidth then "FD" else "F")])

/-- Binary export, image branch (PDFEditor.tsx:559-569). -/
def drawImageElem (e : PDFElement) : List PdfOp :=
  [.addImage e.content e.x e.y e.width e.height]

/-- Binary export, divider branch (PDFEditor.tsx:570-584). -/
def drawDividerElem (e : PDFElement) : List PdfOp :=
  [.setDrawColor (jsStr e.borderColor "#000000"),
   .setFillColor (jsStr e.borderColor "#000000"),
   .setLineWidth e.height,
   .rect e.x e.y e.width e.height "F"]

/-- The deferred draw procedure built for one element
(`renderPromises = elements.map(...)`, PDFEditor.tsx:395). -/
def renderProc (env : RenderEnv) (e : PDFElement) : List PdfOp :=
  match e.type with
  | .text => drawTextElem env e
  | .title => drawTextElem env e
  | .chart => drawChartElem env e
  | .card => drawCardElem e
  | .image => drawImageElem e
  | .divider => drawDividerElem e

/-- One deferred draw procedure per element, in array order. -/
def renderProcs (env : RenderEnv) (doc : List PDFElement) : List (List PdfOp) :=
  doc.map (renderProc env)

/-- Sequential replay of the joined draw procedures
(PDFEditor.tsx:589-599).  Each draw call is wrapped in try/catch, so one
failing procedure never aborts the rest; the procedures themselves are
total here, failures having already been mapped to no-op steps. -/
def replay (procs : List (List PdfOp)) : List PdfOp := procs.flatten

/-- handleExportPDF's drawing phase: the statements performed on the Page
Writer, in the order the draw procedures execute (array order). -/
def handleExportOps (env : RenderEnv) (doc : List PDFElement) : List PdfOp :=
  replay (renderProcs env doc)

/-- A concrete render environment for witnesses. -/
def envC : RenderEnv :=
  { measure := fun _ _ _ => 0
    parseChart := fun s => some s
    renderChart := fun cfg _ _ => cfg
    ctxOk := true }

/-- Tag each task with its array index (the order Promise.all reports
results in, independent of completion order). -/
def indexedFrom {α : Type} (i : ℕ) : List α → List (ℕ × α)
  | [] => []
  | a :: l => (i, a) :: indexedFrom (i + 1) l

def indexed {α : Type} (l : List α) : List (ℕ × α) := indexedFrom 0 l

/-- Promise.all's join: completion results may arrive in any order
(`arrivals` is some permutation of the indexed tasks), but the resolved
array lists each result at its original index. -/
def awaitAll {α : Type} (d : α) (arrivals : List (ℕ × α)) (n : ℕ) : List α :=
  (List.range n).map fun i => ((arrivals.find? (fun p => p.1 == i)).map Prod.snd).getD d

/-- Projection used to distinguish draw steps without evaluating their
rational coordinate arguments. -/
def opContent : PdfOp → Option String
  | .printText c _ _ _ _ _ _ _ _ => some c
  | _ => none

/-- Projection onto the printText x-coordinate. -/
def opX : PdfOp → Option ℚ
  | .printText _ x _ _ _ _ _ _ _ => some x
  | _ => none

/-- generateCode, text/title branch (PDFContext.tsx:188-221): the emitted
statements set the mapped font and size, measure the content, and print at
Math.round(position) + padding plus the alignment offset; note the
emitted literals round position.x and position.y. -/
def genTextElem (measure : String → ℚ → String → ℚ) (e : PDFElement) : List PdfOp :=
  let fontName := mapFontToPDFCtx (jsStr e.fontFamily "Arial")
  let fontSize := jsNum e.fontSize 16
  let textWidth := measure fontName fontSize e.content
  let baselineOffset := fontSize * (3 / 4)
  let padding := e.padding.getD 0
  let availableWidth := e.width - padding * 2
  let textX := (jsRound e.x : ℚ) + padding
  let textY := (jsRound e.y : ℚ) + baselineOffset + padding
  let textX :=
    if e.textAlign = some "center" then textX + (availableWidth - textWidth) / 2
    else if e.textAlign = some "right" then textX + (availableWidth - textWidth)
    else textX
  [.setFontOnly fontName, .setFontSize fontSize,
   .printText e.content textX textY fontName fontSize (jsStr e.fontStyle "normal")
     (jsStr e.fontWeight "normal") "left" (jsStr e.textColor "#000000")]

/-- generateCode, chart branch (PDFContext.tsx:222-235): the recipe
creates a fresh canvas of the rounded element size (with a placeholder
comment instead of the chart data) and embeds its data URL at the rounded
element rectangle. -/
def genChartElem (e : PDFElement) : List PdfOp :=
  [.addImage "chartCanvas.toDataURL()" (jsRound e.x : ℚ) (jsRound e.y : ℚ)
    (jsRound e.width : ℚ) (jsRound e.height : ℚ)]

/-- generateCode, image branch (PDFContext.tsx:236-244). -/
def genImageElem (e : PDFElement) : List PdfOp :=
  [.addImage e.content (jsRound e.x : ℚ) (jsRound e.y : ℚ)
    (jsRound e.width : ℚ) (jsRound e.height : ℚ)]

/-- generateCode, card branch (PDFContext.tsx:245-272): same border /
shadow / rounding branches as the binary path, with rounded coordinates. -/
def genCardElem (e : PDFElement) : List PdfOp :=
  (if hasPos e.borderWidth then
    [.setDrawColor (jsStr e.borderColor "#000000"), .setLineWidth (e.borderWidth.getD 0)]
  else []) ++
  (if e.shadow = some true then
    [.setFillColorRGB 200 200 200,
     .roundedRect (jsRound (e.x + 2) : ℚ) (jsRound (e.y + 2) : ℚ) (jsRound e.width : ℚ)
       (jsRound e.height : ℚ) (e.borderRadius.getD 0) "F"]
  else []) ++
  [.setFillColor (jsStr e.backgroundColor "#ffffff")] ++
  (if hasPos e.borderRadius then
    [.roundedRect (jsRound e.x : ℚ) (jsRound e.y : ℚ) (jsRound e.width : ℚ)
      (jsRound e.height : ℚ) (e.borderRadius.getD 0)
      (if hasPos e.borderWidth then "FD" else "F")]
  else
    [.rect (jsRound e.x : ℚ) (jsRound e.y : ℚ) (jsRound e.width : ℚ) (jsRound e.height : ℚ)
      (if hasPos e.borderWidth then "FD" else "F")])

/-- generateCode, divider branch (PDFContext.tsx:273-282): note the
emitted line width is `element.height || 1` (the binary path uses the raw
height). -/
def genDividerElem (e : PDFElement) : List PdfOp :=
  [.setDrawColor (jsStr e.borderColor "#000000"),
   .setFillColor (jsStr e.borderColor "#000000"),
   .setLineWidth (jsQ e.height 1),
   .rect (jsRound e.x : ℚ) (jsRound e.y : ℚ) (jsRound e.width : ℚ)
     (jsRound e.height : ℚ) "F"]

/-- Per-element statements emitted by generateCode. -/
def genElem (measure : String → ℚ → String → ℚ) (e : PDFElement) : List PdfOp :=
  match e.type with
  | .text => genTextElem measure e
  | .title => genTextElem measure e
  | .chart => genChartElem e
  | .card => genCardElem e
  | .image => genImageElem e
  | .divider => genDividerElem e

/-- The Page-Writer statements the textual recipe performs when run:
generateCode visits the elements sorted ascending by zIndex
(PDFContext.tsx:172) and emits the per-element statements. -/
def generateCodeOps (measure : String → ℚ → String → ℚ)
    (doc : List PDFElement) : List PdfOp :=
  ((sortByZ doc).map (genElem measure)).flatten

/-- Pixel-branch signature of a statement: image payloads are compared
structurally (the recipe re-creates chart canvases instead of embedding
the captured raster), everything else — operation kind, coordinates,
sizes, styles, colors, alignment — is kept. -/
def sigOp : PdfOp → PdfOp
  | .addImage _ x y w h => .addImage "" x y w h
  | op => op

/-- Element with zIndex 1 sitting at array index 0. -/
def eSwapA : PDFElement := { elTextA with zIndex := 1 }

/-- Element with zIndex 0 sitting at array index 1. -/
def eSwapB : PDFElement := { elTextB with zIndex := 0 }

/-- A concrete centered text element for the C5 witness. -/
def eTextC5 : PDFElement :=
  { id := "t", type := .text, content := "Hello", x := 10, y := 20,
    width := 200, height := 100, fontSize := some 16, padding := some 4,
    textAlign := some "center", zIndex := 0 }

/-- Environment whose chart parser rejects everything (models
JSON.parse throwing on a malformed spec). -/
def envBad : RenderEnv :=
  { envC with parseChart := fun _ => none }

/-- A concrete malformed chart element. -/
def eChartBad : PDFElement :=
  { id := "c", type := .chart, content := "not-json", x := 5, y := 6,
    width := 120, height := 80, zIndex := 0 }

/-- Text element at the non-integral x-coordinate 1/2. -/
def eHalfX : PDFElement :=
  { id := "h", type := .text, content := "Hi", x := 1 / 2, y := 0,
    width := 200, height := 100, zIndex := 0 }

/-- Document used by the C7 witness: two dense text elements with
integral coordinates. -/
def docW7 : List PDFElement := [elTextA, elTextB]

/-- JS String.prototype.replace with a string pattern: replace only the
FIRST occurrence. -/
def replaceFirst (s pat rep : String) : String :=
  match s.splitOn pat with
  | [] => s
  | [_] => s
  | x :: rest => x ++ rep ++ String.intercalate pat rest

/-- Footer token substitution (part_001:261-269): replace the first
occurrence of {PAGENUM} by the page number, then the first occurrence of
{PAGES} by the total page count. -/
def substFooter (s : String) (page total : ℕ) : String :=
  replaceFirst (replaceFirst s "{PAGENUM}" (toString page)) "{PAGES}" (toString total)

/-- The PdfWrapper state printFooter reads (part_001). -/
structure WrapperState where
  leftFooter : String := ""
  rightFooter : String := ""
  centerFooter : String := ""
  pageWidth : ℚ := 595
  pageHeight : ℚ := 842
  numberOfPages : ℕ := 1

/-- printFooter (part_001:253-302): returns immediately when rightFooter
is empty; otherwise, for each page from fromPageNumber to the page count,
draws the separator line and the left / right / center footer texts
(each only when nonempty) with token substitution. -/
def printFooter (st : WrapperState) (fromPageNumber : ℕ) : List PdfOp :=
  if st.rightFooter = "" then []
  else
    ((List.range' fromPageNumber (st.numberOfPages + 1 - fromPageNumber)).map (fun i =>
      [PdfOp.setPage i, PdfOp.setTextColor "#00000055", PdfOp.setFontSize 8,
       PdfOp.setFont "Helvetica" "normal" "normal",
       PdfOp.line 10 (st.pageHeight - 34) (st.pageWidth - 10) (st.pageHeight - 34)] ++
      (if st.leftFooter = "" then []
       else [PdfOp.textDraw (substFooter st.leftFooter i st.numberOfPages) 20
         (st.pageHeight - 20) "left"]) ++
      [PdfOp.textDraw (substFooter st.rightFooter i st.numberOfPages)
        (st.pageWidth - 20) (st.pageHeight - 20) "right"] ++
      (if st.centerFooter = "" then []
       else [PdfOp.textDraw (substFooter st.centerFooter i st.numberOfPages)
         (st.pageWidth / 2) (st.pageHeight - 20) "center"]))).flatten

/-- Options of PdfWrapper.printText (part_001:16-27); the link target is
abstracted to an opaque string. -/
structure PrintOptions where
  x : Option ℚ := none
  y : Option ℚ := none
  fontName : Option String := none
  color : Option String := none
  fontSize : Option ℚ := none
  fontStyle : Option String := none
  fontWeight : Option String := none
  align : Option String := none
  link : Option String := none
  maxWidth : Option ℚ := none
  deriving DecidableEq, Repr

/-- Cursor and pdf font/color state touched by PdfWrapper.printText. -/
structure PdfState where
  cursorX : ℚ := 10
  cursorY : ℚ := 10
  fontSize : ℚ := 16
  textColor : String := "black"
  fontName : String := "Helvetica"
  fontStyle : String := "normal"
  fontWeight : String := "normal"
  deriving DecidableEq, Repr

/-- printText (part_001:199-235): empty content returns immediately;
otherwise set font size, text color and font, draw the text (with link if
given) at `x || cursor` / `y || cursor` (0 is falsy), and advance the
cursor via setCurrentPos({x, y}): cursorY becomes (y ?? cursorY) +
fontSize, cursorX becomes x when x is truthy. -/
def printText (content : String) (o : PrintOptions) (st : PdfState) :
    PdfState × List PdfOp :=
  if content = "" then (st, [])
  else
    let fs := jsNum o.fontSize 12
    let color := jsStr o.color "black"
    let fn := jsStr o.fontName "Helvetica"
    let fstyle := jsStr o.fontStyle "normal"
    let fweight := jsStr o.fontWeight "normal"
    let xv := jsNum o.x st.cursorX
    let yv := jsNum o.y st.cursorY
    let drawOp :=
      match o.link with
      | some _ => PdfOp.textWithLink content xv yv
      | none => PdfOp.textDraw content xv yv (jsStr o.align "left")
    let cy := o.y.getD st.cursorY + fs
    let cx := let xd := o.x.getD st.cursorX
              if xd = 0 then st.cursorX else xd
    ({ st with cursorX := cx, cursorY := cy, fontSize := fs, textColor := color,
               fontName := fn, fontStyle := fstyle, fontWeight := fweight },
     [PdfOp.setFontSize fs, PdfOp.setTextColor color, PdfOp.setFont fn fstyle fweight,
      drawOp])

theorem jsRound_eq_self {q : ℚ} (h : IsIntQ q) : (jsRound q : ℚ) = q := by
  unfold IsIntQ at h
  unfold jsRound
  rw [← h]
  have h2 : ⌊(⌊q⌋ : ℚ) + 1 / 2⌋ = ⌊q⌋ + ⌊(1 : ℚ) / 2⌋ := Int.floor_int_add ⌊q⌋ (1 / 2)
  rw [h2]
  norm_num

theorem IsIntQ.add_two {q : ℚ} (h : IsIntQ q) : IsIntQ (q + 2) := by
  unfold IsIntQ at h ⊢
  have h2 : ⌊q + ((2 : ℤ) : ℚ)⌋ = ⌊q⌋ + 2 := Int.floor_add_int q 2
  push_cast at h2
  rw [h2]
  push_cast
  rw [h]

theorem renumberFrom_renumberFrom (l : List PDFElement) :
    ∀ i, renumberFrom i (renumberFrom i l) = renumberFrom i l := by
  induction l with
  | nil => intro i; rfl
  | cons e es ih =>
    intro i
    simp [renumberFrom, ih (i + 1)]

theorem Dense_renumber (l : List PDFElement) : Dense (renumber l) := by
  unfold Dense renumber
  exact renumberFrom_renumberFrom l 0

theorem Dense_applyStackOp (op : StackOp) (l : List PDFElement) (h : Dense l) :
    Dense (applyStackOp op l) := by
  cases op with
  | bringForward id =>
    simp only [applyStackOp, bringForward]
    split
    · exact h
    · split
      · exact h
      · exact Dense_renumber _
  | sendBackward id =>
    simp only [applyStackOp, sendBackward]
    split
    · exact h
    · split
      · exact h
      · exact Dense_renumber _
  | bringToFront id =>
    simp only [applyStackOp, bringToFront]
    split
    · exact h
    · exact Dense_renumber _
  | sendToBack id =>
    simp only [applyStackOp, sendToBack]
    split
    · exact h
    · exact Dense_renumber _

theorem Dense_applyStackOps (ops : List StackOp) (l : List PDFElement) (h : Dense l) :
    Dense (applyStackOps ops l) := by
  induction ops generalizing l with
  | nil => exact h
  | cons op rest ih =>
    exact ih (applyStackOp op l) (Dense_applyStackOp op l h)

theorem map_zIndex_renumberFrom (l : List PDFElement) :
    ∀ i, (renumberFrom i l).map PDFElement.zIndex = List.range' i l.length := by
  induction l with
  | nil => intro i; rfl
  | cons e es ih =>
    intro i
    simp [renumberFrom, List.range', ih (i + 1)]

theorem Dense.map_zIndex {l : List PDFElement} (h : Dense l) :
    l.map PDFElement.zIndex = List.range l.length := by
  have hm := map_zIndex_renumberFrom l 0
  unfold Dense renumber at h
  rw [h] at hm
  rw [hm, List.range_eq_range']

theorem zIndex_le_of_mem_renumberFrom {e : PDFElement} :
    ∀ {l : List PDFElement} {i : ℕ}, e ∈ renumberFrom i l → i ≤ e.zIndex := by
  intro l
  induction l with
  | nil => intro i h; cases h
  | cons a as ih =>
    intro i h
    rcases List.mem_cons.mp h with h1 | h2
    · subst h1; exact le_refl i
    · exact Nat.le_of_succ_le (ih h2)

theorem sorted_renumberFrom (l : List PDFElement) :
    ∀ i, List.Sorted (fun a b : PDFElement => a.zIndex ≤ b.zIndex) (renumberFrom i l) := by
  induction l with
  | nil => intro i; exact List.sorted_nil
  | cons a as ih =>
    intro i
    rw [renumberFrom, List.sorted_cons]
    constructor
    · intro b hb
      exact Nat.le_of_succ_le (zIndex_le_of_mem_renumberFrom hb)
    · exact ih (i + 1)

theorem Dense.sorted {l : List PDFElement} (h : Dense l) :
    List.Sorted (fun a b : PDFElement => a.zIndex ≤ b.zIndex) l := by
  have hs := sorted_renumberFrom l 0
  unfold Dense renumber at h
  rwa [h] at hs

theorem sortByZ_eq_of_dense {l : List PDFElement} (h : Dense l) : sortByZ l = l :=
  List.Sorted.insertionSort_eq h.sorted

/-- C2: starting from a collection whose zIndex values equal the array
positions, any finite sequence of bringForward / sendBackward /
bringToFront / sendToBack calls (with arbitrary ids, present or not)
leaves the zIndex values exactly {0,…,N−1} with each element's zIndex
equal to its array index. -/
theorem C2_stack_ops_keep_zIndex_dense (l : List PDFElement) (ops : List StackOp)
    (h : Dense l) :
    Dense (applyStackOps ops l) ∧
    (applyStackOps ops l).map PDFElement.zIndex = List.range (applyStackOps ops l).length :=
  ⟨Dense_applyStackOps ops l h, (Dense_applyStackOps ops l h).map_zIndex⟩

theorem C2_witness :
    Dense [elTextA, elTextB] ∧
    (Dense (applyStackOps opsW [elTextA, elTextB]) ∧
      (applyStackOps opsW [elTextA, elTextB]).map PDFElement.zIndex =
        List.range (applyStackOps opsW [elTextA, elTextB]).length) :=
  ⟨by decide, C2_stack_ops_keep_zIndex_dense [elTextA, elTextB] opsW (by decide)⟩

/-- C3: the zIndex-density invariant is NOT preserved by deleteElement:
deleting the first of two dense elements leaves the survivor with
zIndex 1 at array index 0, and a subsequent addElement (which assigns
zIndex = elements.length, relying on density) then produces a duplicate
zIndex [1, 1], contradicting the "added on top" intent. -/
theorem C3_deleteElement_breaks_density :
    Dense [elTextA, elTextB] ∧
    ¬ Dense (deleteElement "a" [elTextA, elTextB]) ∧
    (addElement "c" elTextA (deleteElement "a" [elTextA, elTextB])).map PDFElement.zIndex
      = [1, 1] := by decide

/-- C4 counterexample: moveElement clamps only below at 0 and never against
the right/bottom paper edge, so moving an element of width 200 to x = 1000
on A4 paper (595 × 842) stores a position violating x + width ≤ paperWidth. -/
theorem C4_counterexample :
    (moveElement "a" 1000 0 [elTextA]).map (fun el => el.x + el.width) = [1200] ∧
    ¬ ((1200 : ℚ) ≤ 595) := by
  constructor
  · simp only [moveElement, elTextA, List.map_cons, List.map_nil]
    norm_num
  · norm_num

/-- C4 (amended): whenever the element fits the paper (w ≤ paperWidth and
h ≤ paperHeight), the drop/hover clamp returns a point satisfying all four
bounds and is total; moveElement itself guarantees only the lower bounds
0 ≤ x and 0 ≤ y on the moved element. -/
theorem C4_clamp_in_bounds (px py w h pw ph : ℚ) (hw : w ≤ pw) (hh : h ≤ ph) :
    (0 ≤ (clampToPaper px py w h pw ph).1 ∧ 0 ≤ (clampToPaper px py w h pw ph).2 ∧
      (clampToPaper px py w h pw ph).1 + w ≤ pw ∧
      (clampToPaper px py w h pw ph).2 + h ≤ ph) ∧
    ∀ (id : String) (x y : ℚ) (l : List PDFElement), ∀ el ∈ moveElement id x y l,
      el.id = id → 0 ≤ el.x ∧ 0 ≤ el.y := by
  constructor
  · refine ⟨le_max_left 0 _, le_max_left 0 _, ?_, ?_⟩
    · have h1 : max 0 (min px (pw - w)) ≤ pw - w :=
        max_le (by linarith) (min_le_right _ _)
      simpa [clampToPaper] using by linarith
    · have h1 : max 0 (min py (ph - h)) ≤ ph - h :=
        max_le (by linarith) (min_le_right _ _)
      simpa [clampToPaper] using by linarith
  · intro id x y l el hmem hid
    rcases List.mem_map.mp hmem with ⟨a, _, rfl⟩
    by_cases hb : a.id == id
    · simp only [hb, if_true]
      exact ⟨le_max_left 0 x, le_max_left 0 y⟩
    · rw [if_neg (by simpa using hb)] at hid ⊢
      exact absurd hid (by simpa using hb)

theorem C4_witness :
    ((200 : ℚ) ≤ 595 ∧ (100 : ℚ) ≤ 842) ∧
    (0 ≤ (clampToPaper 700 (-50) 200 100 595 842).1 ∧
      0 ≤ (clampToPaper 700 (-50) 200 100 595 842).2 ∧
      (clampToPaper 700 (-50) 200 100 595 842).1 + 200 ≤ 595 ∧
      (clampToPaper 700 (-50) 200 100 595 842).2 + 100 ≤ 842) :=
  ⟨⟨by norm_num, by norm_num⟩,
    (C4_clamp_in_bounds 700 (-50) 200 100 595 842 (by norm_num) (by norm_num)).1⟩

/-- C8 counterexample: displayToPdfCoordinates performs no rounding — at
display point (1,1) with scale 2 it returns x = 1/2, which is not an
integer number of points, refuting "rounded to integer points". -/
theorem C8_counterexample :
    (displayToPdfCoordinates 2 1 1).1 = 1 / 2 ∧
    ¬ IsIntQ (displayToPdfCoordinates 2 1 1).1 := by
  have h : (displayToPdfCoordinates 2 1 1).1 = 1 / 2 := by
    simp [displayToPdfCoordinates]
  refine ⟨h, ?_⟩
  rw [h]
  unfold IsIntQ
  norm_num

/-- C8 (amended): displayToPdfCoordinates returns exactly
(screen − containerOrigin) / containerSize × paperDims with NO rounding
(the container size being scale × paperDim in each axis), and it exactly
inverts the rendering transform (multiplication by scale) for every scale
in [0.5, 2.0]. -/
theorem C8_inverse_transform (s pw ph dx dy ex ey : ℚ)
    (hs1 : 1 / 2 ≤ s) (hs2 : s ≤ 2) (hpw : pw ≠ 0) (hph : ph ≠ 0) :
    displayToPdfCoordinates s dx dy = (dx / (s * pw) * pw, dy / (s * ph) * ph) ∧
    displayToPdfCoordinates s (s * ex) (s * ey) = (ex, ey) := by
  have hs : s ≠ 0 := by
    have : (0 : ℚ) < s := lt_of_lt_of_le (by norm_num) hs1
    exact ne_of_gt this
  constructor
  · simp only [displayToPdfCoordinates, Prod.mk.injEq]
    constructor
    · field_simp
      ring
    · field_simp
      ring
  · simp only [displayToPdfCoordinates, Prod.mk.injEq]
    constructor
    · field_simp
    · field_simp

theorem get?_mem_indexedFrom {α : Type} {l : List α} :
    ∀ {j : ℕ} {v : α}, l.get? j = some v → ∀ i, (i + j, v) ∈ indexedFrom i l := by
  induction l with
  | nil => intro j v h i; simp at h
  | cons a as ih =>
    intro j v h i
    cases j with
    | zero =>
      simp at h
      subst h
      simp [indexedFrom]
    | succ j =>
      simp only [List.get?_cons_succ] at h
      have h2 := ih h (i + 1)
      rw [indexedFrom]
      refine List.mem_cons.mpr (Or.inr ?_)
      have harith : i + (j + 1) = (i + 1) + j := by omega
      rw [harith]
      exact h2

theorem mem_indexedFrom_get? {α : Type} {p : ℕ × α} {l : List α} :
    ∀ {i : ℕ}, p ∈ indexedFrom i l → i ≤ p.1 ∧ l.get? (p.1 - i) = some p.2 := by
  induction l with
  | nil => intro i h; cases h
  | cons a as ih =>
    intro i h
    rw [indexedFrom] at h
    rcases List.mem_cons.mp h with h1 | h2
    · subst h1
      simp
    · have ⟨hle, hg⟩ := ih h2
      refine ⟨by omega, ?_⟩
      have harith : p.1 - i = (p.1 - (i + 1)) + 1 := by omega
      rw [harith, List.get?_cons_succ]
      exact hg

theorem find?_perm_indexed {α : Type} {l : List α} {ar : List (ℕ × α)}
    (hp : ar.Perm (indexed l)) {i : ℕ} {v : α} (hv : l.get? i = some v) :
    ar.find? (fun p => p.1 == i) = some (i, v) := by
  have hmem : (i, v) ∈ ar := by
    refine hp.symm.subset ?_
    have := get?_mem_indexedFrom hv 0
    simpa [indexed] using this
  have hsome : (ar.find? (fun p => p.1 == i)).isSome :=
    List.find?_isSome.mpr ⟨(i, v), hmem, by simp⟩
  rcases ho : ar.find? (fun p => p.1 == i) with _ | p
  · rw [ho] at hsome; simp at hsome
  · have hpv := List.find?_some ho
    have hpm := List.mem_of_find?_eq_some ho
    have hpi : p.1 = i := by simpa using hpv
    have hmem2 : p ∈ indexed l := hp.subset hpm
    have h2 := mem_indexedFrom_get? (i := 0) hmem2
    have hg : l.get? i = some p.2 := by simpa [hpi] using h2.2
    rw [hv] at hg
    have hv2 : p.2 = v := by
      injection hg with h3
      exact h3.symm
    rw [ho]
    cases p
    simp only [Option.some.injEq, Prod.mk.injEq]
    exact ⟨hpi, hv2⟩

theorem awaitAll_perm {α : Type} (d : α) (l : List α) (ar : List (ℕ × α))
    (hp : ar.Perm (indexed l)) :
    awaitAll d ar l.length = l := by
  apply List.ext_get?_iff.mpr
  intro n
  by_cases hn : n < l.length
  · have hv : l.get? n = some (l.get ⟨n, hn⟩) := List.get?_eq_get hn
    unfold awaitAll
    rw [List.get?_map, List.get?_range hn]
    simp [find?_perm_indexed hp hv, hv]
  · unfold awaitAll
    rw [List.get?_map]
    have h1 : (List.range l.length).get? n = none :=
      List.get?_eq_none.mpr (by simpa using Nat.le_of_not_lt hn)
    have h2 : l.get? n = none := List.get?_eq_none.mpr (Nat.le_of_not_lt hn)
    rw [h1, h2]
    rfl

/-- C1 (amended): handleExportPDF builds one deferred draw procedure per
element, awaits all of them (Promise.all returns the procedures in array
order regardless of the completion order of the chart tasks) and then
executes them sequentially — in the ARRAY order of the element collection.
For documents satisfying the zIndex-density invariant (zIndex = array
index, as every model operation except deleteElement maintains) this
order coincides with ascending zIndex. -/
theorem C1_export_awaits_then_replays_in_order (env : RenderEnv)
    (doc : List PDFElement) (arrivals : List (ℕ × List PdfOp))
    (hp : arrivals.Perm (indexed (renderProcs env doc))) (hD : Dense doc) :
    (renderProcs env doc).length = doc.length ∧
    replay (awaitAll [] arrivals (renderProcs env doc).length) = handleExportOps env doc ∧
    handleExportOps env doc = replay ((sortByZ doc).map (renderProc env)) := by
  refine ⟨List.length_map doc (renderProc env), ?_, ?_⟩
  · rw [awaitAll_perm [] (renderProcs env doc) arrivals hp]
    rfl
  · rw [sortByZ_eq_of_dense hD]
    rfl

/-- C1 counterexample: the binary export path does NOT sort by zIndex
(renderPromises maps over the raw element array, PDFEditor.tsx:395), so
for a document whose zIndex order disagrees with array order the
execution order is not ascending zIndex: with elements [zIndex 1 (text
"A"), zIndex 0 (text "B")] the pipeline draws "A" before "B". -/
theorem C1_counterexample :
    handleExportOps envC [eSwapA, eSwapB] ≠
      replay ((sortByZ [eSwapA, eSwapB]).map (renderProc envC)) := by
  have hs : sortByZ [eSwapA, eSwapB] = [eSwapB, eSwapA] := by decide
  intro h
  have h2 := congrArg (fun l => (l.get? 2).map opContent) h
  rw [hs] at h2
  simp [handleExportOps, replay, renderProcs, renderProc, drawTextElem,
    eSwapA, eSwapB, elTextA, elTextB, opContent] at h2

theorem C1_witness :
    (renderProcs envC [elTextA, elTextB]).length = [elTextA, elTextB].length ∧
    replay (awaitAll [] (indexed (renderProcs envC [elTextA, elTextB])).reverse
        (renderProcs envC [elTextA, elTextB]).length) =
      handleExportOps envC [elTextA, elTextB] ∧
    handleExportOps envC [elTextA, elTextB] =
      replay ((sortByZ [elTextA, elTextB]).map (renderProc envC)) :=
  C1_export_awaits_then_replays_in_order envC [elTextA, elTextB]
    (indexed (renderProcs envC [elTextA, elTextB])).reverse
    (List.reverse_perm _) (by decide)

/-- C5: for a text or title element the binary export draws the text at
x + padding (left), x + padding + (availableWidth − textWidth)/2 (center),
or x + padding + availableWidth − textWidth (right), and at
y + fontSize × 0.75 + padding, where availableWidth = width − 2·padding
and textWidth is the measured width of the content. -/
theorem C5_text_layout (env : RenderEnv) (e : PDFElement)
    (ht : e.type = ElemType.text ∨ e.type = ElemType.title) :
    renderProc env e =
      [PdfOp.setFontOnly (mapFontToPDF (jsStr e.fontFamily "Arial")),
       PdfOp.setFontSize (jsNum e.fontSize 16),
       PdfOp.printText e.content
         (if e.textAlign = some "center" then
            e.x + e.padding.getD 0 +
              ((e.width - 2 * e.padding.getD 0) -
                env.measure (mapFontToPDF (jsStr e.fontFamily "Arial"))
                  (jsNum e.fontSize 16) e.content) / 2
          else if e.textAlign = some "right" then
            e.x + e.padding.getD 0 +
              ((e.width - 2 * e.padding.getD 0) -
                env.measure (mapFontToPDF (jsStr e.fontFamily "Arial"))
                  (jsNum e.fontSize 16) e.content)
          else e.x + e.padding.getD 0)
         (e.y + jsNum e.fontSize 16 * (3 / 4) + e.padding.getD 0)
         (mapFontToPDF (jsStr e.fontFamily "Arial")) (jsNum e.fontSize 16)
         (jsStr e.fontStyle "normal") (jsStr e.fontWeight "normal") "left"
         (jsStr e.textColor "#000000")] := by
  have hdraw : renderProc env e = drawTextElem env e := by
    rcases ht with h | h <;> simp [renderProc, h]
  rw [hdraw]
  unfold drawTextElem
  by_cases hc : e.textAlign = some "center"
  · simp only [hc, if_true]
    try norm_num
    try ring
  · by_cases hr : e.textAlign = some "right"
    · simp only [hc, hr, if_false, if_true]
      try norm_num
      try ring
    · simp only [hc, hr, if_false]
      try norm_num
      try ring

theorem C5_witness :
    renderProc envC eTextC5 =
      [PdfOp.setFontOnly "helvetica", PdfOp.setFontSize 16,
       PdfOp.printText "Hello" 110 36 "helvetica" 16 "normal" "normal" "left"
         "#000000"] := by
  have h := C5_text_layout envC eTextC5 (Or.inl rfl)
  rw [h]
  simp [eTextC5, envC, jsStr, jsNum, mapFontToPDF]
  norm_num

/-- C6: exporting a document with one failing chart element (unparseable
spec or no drawing surface) and one valid text element catches the failure
per element: the chart contributes a no-op draw step, the text element is
still drawn in full, and the pipeline produces a (nonempty) output. -/
theorem C6_chart_failure_isolated (env : RenderEnv) (chartE textE : PDFElement)
    (hc : chartE.type = ElemType.chart) (ht : textE.type = ElemType.text)
    (hfail : env.parseChart chartE.content = none ∨ env.ctxOk = false) :
    renderProc env chartE = [] ∧
    handleExportOps env [chartE, textE] = renderProc env textE ∧
    renderProc env textE ≠ [] := by
  have hchart : renderProc env chartE = [] := by
    rcases hfail with h | h
    · by_cases hctx : env.ctxOk = false
      · simp [renderProc, hc, drawChartElem, hctx]
      · simp [renderProc, hc, drawChartElem, hctx, h]
    · simp [renderProc, hc, drawChartElem, h]
  refine ⟨hchart, ?_, ?_⟩
  · simp [handleExportOps, replay, renderProcs, hchart]
  · simp [renderProc, ht, drawTextElem]

theorem C6_witness :
    renderProc envBad eChartBad = [] ∧
    handleExportOps envBad [eChartBad, elTextA] = renderProc envBad elTextA ∧
    renderProc envBad elTextA ≠ [] :=
  C6_chart_failure_isolated envBad eChartBad elTextA rfl rfl (Or.inl rfl)

theorem C8_witness :
    ((1 : ℚ) / 2 ≤ 1 ∧ (1 : ℚ) ≤ 2 ∧ (595 : ℚ) ≠ 0 ∧ (842 : ℚ) ≠ 0) ∧
    (displayToPdfCoordinates 1 10 20 = (10 / (1 * 595) * 595, 20 / (1 * 842) * 842) ∧
      displayToPdfCoordinates 1 (1 * 3) (1 * 4) = (3, 4)) :=
  ⟨⟨by norm_num, by norm_num, by norm_num, by norm_num⟩,
    C8_inverse_transform 1 595 842 10 20 3 4 (by norm_num) (by norm_num)
      (by norm_num) (by norm_num)⟩

theorem genElem_sig_eq (env : RenderEnv) (e : PDFElement)
    (hx : IsIntQ e.x) (hy : IsIntQ e.y) (hw : IsIntQ e.width) (hh : IsIntQ e.height)
    (hFont : mapFontToPDFCtx (jsStr e.fontFamily "Arial") =
      mapFontToPDF (jsStr e.fontFamily "Arial"))
    (hDiv : e.type = ElemType.divider → e.height ≠ 0)
    (hChart : e.type = ElemType.chart → (env.parseChart e.content).isSome)
    (hCtx : env.ctxOk = true) :
    (genElem env.measure e).map sigOp = (renderProc env e).map sigOp := by
  have rx := jsRound_eq_self hx
  have ry := jsRound_eq_self hy
  have rw' := jsRound_eq_self hw
  have rh := jsRound_eq_self hh
  have rx2 := jsRound_eq_self hx.add_two
  have ry2 := jsRound_eq_self hy.add_two
  cases he : e.type with
  | text =>
    simp [genElem, renderProc, he, genTextElem, drawTextElem, sigOp, rx, ry, hFont]
  | title =>
    simp [genElem, renderProc, he, genTextElem, drawTextElem, sigOp, rx, ry, hFont]
  | chart =>
    rcases Option.isSome_iff_exists.mp (hChart he) with ⟨cfg, hcfg⟩
    simp [genElem, renderProc, he, genChartElem, drawChartElem, sigOp, hCtx, hcfg,
      rx, ry, rw', rh]
  | card =>
    simp [genElem, renderProc, he, genCardElem, drawCardElem, sigOp,
      rx, ry, rw', rh, rx2, ry2]
  | image =>
    simp [genElem, renderProc, he, genImageElem, drawImageElem, sigOp, rx, ry, rw', rh]
  | divider =>
    simp [genElem, renderProc, he, genDividerElem, drawDividerElem, sigOp,
      rx, ry, rw', rh, jsQ, hDiv he]

/-- C7 (amended): the textual recipe visits the same elements in the same
order and emits, for every pixel-affecting branch, a statement performing
the same Page Writer operation with the same parameters as the binary
path — up to the divergences the code actually has: the recipe rounds
coordinates to integers (so equality needs integral positions and sizes),
it uses the context font table (which also maps Symbol / ZapfDingbats),
it emits width `height || 1` for dividers, it always emits a chart
addImage (the binary path draws nothing when parsing or the canvas
context fails), it re-creates chart canvases instead of embedding the
captured raster (image payloads erased by sigOp), and it sorts by zIndex
while the binary path uses array order (equal under the density
invariant). -/
theorem C7_generateCode_matches_export (env : RenderEnv) (doc : List PDFElement)
    (hD : Dense doc)
    (hInt : ∀ e ∈ doc, IsIntQ e.x ∧ IsIntQ e.y ∧ IsIntQ e.width ∧ IsIntQ e.height)
    (hFont : ∀ e ∈ doc, mapFontToPDFCtx (jsStr e.fontFamily "Arial") =
      mapFontToPDF (jsStr e.fontFamily "Arial"))
    (hDiv : ∀ e ∈ doc, e.type = ElemType.divider → e.height ≠ 0)
    (hChart : ∀ e ∈ doc, e.type = ElemType.chart → (env.parseChart e.content).isSome)
    (hCtx : env.ctxOk = true) :
    (generateCodeOps env.measure doc).map sigOp = (handleExportOps env doc).map sigOp := by
  rw [generateCodeOps, sortByZ_eq_of_dense hD]
  rw [handleExportOps, replay, renderProcs]
  rw [List.map_flatten, List.map_flatten, List.map_map, List.map_map]
  congr 1
  apply List.map_congr_left
  intro e he
  have ⟨hx, hy, hw, hh⟩ := hInt e he
  exact genElem_sig_eq env e hx hy hw hh (hFont e he) (hDiv e he) (hChart e he) hCtx

/-- C7 counterexample: the serializer is not exactly isomorphic — it
rounds coordinates.  For a text element at x = 1/2 the recipe prints at
x = 1 (Math.round(0.5)) while the binary path prints at x = 1/2, so the
emitted statement's coordinates differ from the performed ones. -/
theorem C7_counterexample :
    (generateCodeOps envC.measure [eHalfX]).map sigOp ≠
      (handleExportOps envC [eHalfX]).map sigOp := by
  intro h
  have h2 := congrArg (fun l => (l.get? 2).map opX) h
  simp [generateCodeOps, handleExportOps, replay, renderProcs, renderProc, sortByZ,
    List.insertionSort, List.orderedInsert, genElem, genTextElem, drawTextElem,
    eHalfX, envC, sigOp, opX, jsRound, jsStr, jsNum] at h2
  norm_num at h2

theorem C7_witness :
    (generateCodeOps envC.measure docW7).map sigOp =
      (handleExportOps envC docW7).map sigOp := by
  refine C7_generateCode_matches_export envC docW7 (by decide) ?_ ?_ ?_ ?_ rfl
  · intro e he
    fin_cases he <;> refine ⟨?_, ?_, ?_, ?_⟩ <;> norm_num [elTextA, elTextB, IsIntQ]
  · intro e he
    fin_cases he <;> rfl
  · intro e he
    fin_cases he <;> simp [elTextA, elTextB]
  · intro e he
    fin_cases he <;> simp [elTextA, elTextB]

/-- C9: when the right footer string is empty, printFooter draws nothing
at all on any page — no separator line, no left, center or right footer
text, no token substitution — regardless of the starting page and of the
left and center footer strings. -/
theorem C9_empty_right_footer_noop (st : WrapperState) (fromPageNumber : ℕ)
    (h : st.rightFooter = "") :
    printFooter st fromPageNumber = [] := by
  simp [printFooter, h]

theorem C9_witness :
    ({ leftFooter := "left of {PAGENUM}", rightFooter := "",
       centerFooter := "page {PAGENUM} of {PAGES}",
       numberOfPages := 7 : WrapperState }).rightFooter = "" ∧
    printFooter
      { leftFooter := "left of {PAGENUM}", rightFooter := "",
        centerFooter := "page {PAGENUM} of {PAGES}", numberOfPages := 7 } 3 = [] :=
  ⟨rfl, C9_empty_right_footer_noop
    { leftFooter := "left of {PAGENUM}", rightFooter := "",
      centerFooter := "page {PAGENUM} of {PAGES}", numberOfPages := 7 } 3 rfl⟩

/-- C10: printText with an empty string is a complete no-op: no drawing
statement is issued, the font and color state are unchanged, and the
cursor position is unchanged — for every option set and every starting
state. -/
theorem C10_printText_empty_noop (o : PrintOptions) (st : PdfState) :
    printText "" o st = (st, []) := by
  simp [printText]

end JsPdfGen
